import Mathlib

/-!
Verification of the remediation agent (backend language plugins, orchestrator
contract, git branch naming, and the results page of the frontend).

The JavaScript language plugin (error parser, error fixer, language
detection) is embedded from the Python sources found in the repository's
multi-language roadmap document.  Strings are modelled as `List Char`
internally; a Python file is modelled as the list of its lines (each line
keeping its trailing newline, as `readlines` produces), wrapped in `Option`
to account for a failing read.  Regular expressions are embedded as
executable string scanners that implement the exact leftmost-match
semantics of the concrete patterns appearing in the source.
-/

/-- Does `pat` occur at the head of the list (case sensitive)?  Models the
start of a Python `re` literal match / `str.startswith`. -/
def leadMatch : List Char → List Char → Bool
  | _, [] => true
  | [], _ :: _ => false
  | c :: t, p :: ps => (c == p) && leadMatch t ps

/-- Case-sensitive substring test, models Python `pat in hay`. -/
def hasSubstr : List Char → List Char → Bool
  | [], pat => pat.isEmpty
  | c :: t, pat => leadMatch (c :: t) pat || hasSubstr t pat

/-- Suffix test on character lists, models `str.endswith`. -/
def hasSuffix (l suf : List Char) : Bool := leadMatch l.reverse suf.reverse

/-- The whitespace characters stripped by Python's default `strip` family. -/
def pyIsSpace (c : Char) : Bool :=
  c == ' ' || c == '\t' || c == '\n' || c == '\r' || c == '\x0b' || c == '\x0c'

/-- Python `str.split('\n')`. -/
def splitLines : List Char → List (List Char)
  | [] => [[]]
  | c :: t =>
    if c == '\n' then [] :: splitLines t
    else
      match splitLines t with
      | [] => [[c]]
      | h :: r => (c :: h) :: r

/-- Case-insensitive variant of `leadMatch`, for `re.IGNORECASE` patterns. -/
def lowStarts : List Char → List Char → Bool
  | _, [] => true
  | [], _ :: _ => false
  | c :: t, p :: ps => (c.toLower == p.toLower) && lowStarts t ps

/-- Leftmost case-insensitive occurrence of `pat` in `hay`; returns the
matched slice of the original text (Python `re.search` with a literal
pattern under `re.IGNORECASE`, yielding `group(0)`). -/
def findLit : List Char → List Char → Option (List Char)
  | [], pat => if pat.isEmpty then some [] else none
  | c :: t, pat =>
    if lowStarts (c :: t) pat then some ((c :: t).take pat.length)
    else findLit t pat

/-- Index of the last case-insensitive occurrence of `pat` in `hay`. -/
def lastFind : List Char → List Char → Option Nat
  | [], pat => if pat.isEmpty then some 0 else none
  | c :: t, pat =>
    match lastFind t pat with
    | some i => some (i + 1)
    | none => if lowStarts (c :: t) pat then some 0 else none

/-- Leftmost match of a pattern of the shape `A.*B` under `re.IGNORECASE`
(`.` does not cross a newline, `.*` is greedy): at the first position where
`a` matches, `b` must occur later on the same line; the returned slice runs
to the end of the last such occurrence of `b`. -/
def seqFind (a b : List Char) : List Char → Option (List Char)
  | [] => none
  | c :: t =>
    if lowStarts (c :: t) a then
      let afterA := (c :: t).drop a.length
      let lineRest := afterA.takeWhile (fun x => x != '\n')
      match lastFind lineRest b with
      | some i => some ((c :: t).take (a.length + i + b.length))
      | none => seqFind a b t
    else seqFind a b t

/-- Parse a maximal nonempty run of decimal digits (`\d+`), returning its
value and the remaining characters. -/
def takeDigits (cs : List Char) : Option (Nat × List Char) :=
  let ds := cs.takeWhile Char.isDigit
  if ds.isEmpty then none
  else some (ds.foldl (fun a c => a * 10 + (c.toNat - 48)) 0, cs.drop ds.length)

/-- Error classification buckets of the agent's data model. -/
inductive ErrorKind
  | SYNTAX | LINTING | INDENTATION | IMPORT | LOGIC | TYPE_ERROR | UNKNOWN
deriving DecidableEq

/-- One classified error record (`ErrorInfo` in the Python sources; the
Python field `type` is called `kind` here because `type` is reserved). -/
structure ErrorInfo where
  file : String
  line : Nat
  kind : ErrorKind
  message : String
deriving DecidableEq

/-- Locator pattern 1 of `JavaScriptParser.file_line_patterns`, the part
after the literal `(` of the stack-trace regex: `([^:]+):(\d+):(\d+)\)`.
`[^:]+` is greedy but cannot cross a colon, so it deterministically takes
the characters up to the first colon. -/
def pat1After (cs : List Char) : Option (List Char × Nat) :=
  let fcs := cs.takeWhile (fun c => c != ':')
  if fcs.isEmpty then none
  else
    match cs.drop fcs.length with
    | ':' :: r1 =>
      match takeDigits r1 with
      | some (n1, ':' :: r3) =>
        match takeDigits r3 with
        | some (_, ')' :: _) => some (fcs, n1)
        | _ => none
      | _ => none
    | _ => none

/-- Lazy `.*?` search for the literal `(` of locator pattern 1: try every
`(` from left to right until the suffix parses. -/
def pat1FromParens : List Char → Option (List Char × Nat)
  | [] => none
  | c :: t =>
    if c == '(' then
      match pat1After t with
      | some r => some r
      | none => pat1FromParens t
    else pat1FromParens t

/-- Locator pattern 1: `at .*?\(([^:]+):(\d+):(\d+)\)` (Jest stack trace),
searched at every position of the line, leftmost `at ` first. -/
def pat1 : List Char → Option (List Char × Nat)
  | [] => none
  | c :: t =>
    if leadMatch (c :: t) (("at ").data) then
      match pat1FromParens ((c :: t).drop 3) with
      | some r => some r
      | none => pat1 t
    else pat1 t

/-- Character class `[\w/\\.-]` (plus the optional leading `[/\\]`) of
locator pattern 2, restricted to ASCII word characters. -/
def pat2Char (c : Char) : Bool :=
  c.isAlphanum || c == '_' || c == '/' || c == '\\' || c == '.' || c == '-'

/-- The whole captured group of locator pattern 2 must be a single maximal
run of `pat2Char`s that ends in one of the four extensions with a nonempty
stem, because the character after the group is forced to be `:` which is
outside the class. -/
def extOk (run : List Char) : Bool :=
  [(".js"), (".ts"), (".jsx"), (".tsx")].any fun e =>
    hasSuffix run e.data && decide (e.data.length < run.length)

/-- Locator pattern 2: `^\s*([/\\]?[\w/\\.-]+\.(?:js|ts|jsx|tsx)):(\d+):(\d+)`
(ESLint format), anchored at the start of the line. -/
def pat2 (cs : List Char) : Option (List Char × Nat) :=
  let cs1 := cs.dropWhile pyIsSpace
  let run := cs1.takeWhile pat2Char
  if run.isEmpty || !extOk run then none
  else
    match cs1.drop run.length with
    | ':' :: r1 =>
      match takeDigits r1 with
      | some (n1, ':' :: r3) =>
        match takeDigits r3 with
        | some _ => some (run, n1)
        | none => none
      | _ => none
    | _ => none

/-- The part of locator pattern 3 after the literal text: `([^:]+):(\d+)`. -/
def pat3After (cs : List Char) : Option (List Char × Nat) :=
  let fcs := cs.takeWhile (fun c => c != ':')
  if fcs.isEmpty then none
  else
    match cs.drop fcs.length with
    | ':' :: r1 =>
      match takeDigits r1 with
      | some (n, _) => some (fcs, n)
      | none => none
    | _ => none

/-- Locator pattern 3: `Error in ([^:]+):(\d+)` (generic format). -/
def pat3 : List Char → Option (List Char × Nat)
  | [] => none
  | c :: t =>
    if leadMatch (c :: t) (("Error in ").data) then
      match pat3After ((c :: t).drop 9) with
      | some r => some r
      | none => pat3 t
    else pat3 t

/-- Python `str.lstrip('/')`. -/
def lstripSlash (cs : List Char) : List Char := cs.dropWhile (fun c => c == '/')

/-- POSIX `os.path.join(a, b)`: an absolute `b` wins; otherwise a separator
is inserted unless `a` is empty or already ends in one. -/
def pathJoin (a b : List Char) : List Char :=
  if leadMatch b ['/'] then b
  else if a.isEmpty || hasSuffix a ['/'] then a ++ b
  else a ++ '/' :: b

/-- Path normalization step of `JavaScriptParser.parse_errors`: a locator
rooted at the sandbox mount point `/workspace` is rewritten into the host
repository copy `repo_path` (when one was supplied and is nonempty, matching
Python truthiness of the `repo_path` argument). -/
def convertPathCs (rp : Option (List Char)) (f : List Char) : List Char :=
  if leadMatch f (("/workspace").data) then
    match rp with
    | some r => if r.isEmpty then f else pathJoin r (lstripSlash (f.drop 10))
    | none => f
  else f

/-- The vendored-directory marker filtered by the parser. -/
def nmChars : List Char := ("node_modules").data

/-- The inner `for pattern in self.file_line_patterns` loop: the first
pattern that matches the line produces a locator; after path conversion a
locator inside `node_modules` is skipped (`continue`), letting the next
pattern try the same line. -/
def locFromPats (rp : Option (List Char)) :
    List (List Char → Option (List Char × Nat)) → List Char →
    Option (List Char × Nat)
  | [], _ => none
  | p :: ps, l =>
    match p l with
    | none => locFromPats rp ps l
    | some (f, n) =>
      if hasSubstr (convertPathCs rp f) nmChars then locFromPats rp ps l
      else some (convertPathCs rp f, n)

/-- The ordered locator pattern table of `JavaScriptParser`. -/
def filePats : List (List Char → Option (List Char × Nat)) := [pat1, pat2, pat3]

/-- A single text-matching rule of `JavaScriptParser.error_patterns`: a
literal (searched case-insensitively) or a two-literal rule standing for a
pattern of shape `A.*B`. -/
inductive MsgPat
  | lit (s : String)
  | seq (a b : String)

/-- Run one rule against the joined context text. -/
def runPat (combined : List Char) : MsgPat → Option (List Char)
  | .lit s => findLit combined s.data
  | .seq a b => seqFind a.data b.data combined

/-- First rule of a list that matches. -/
def firstSome {α β : Type} (f : α → Option β) : List α → Option β
  | [] => none
  | x :: xs =>
    match f x with
    | some y => some y
    | none => firstSome f xs

/-- The ordered `error_patterns` table of `JavaScriptParser.__init__`
(insertion order of the Python dict). -/
def errorTable : List (ErrorKind × List MsgPat) :=
  [(.SYNTAX, [.lit ("SyntaxError"), .lit ("Unexpected token"),
      .lit ("missing )"), .lit ("missing \x7d"), .lit ("missing ;"),
      .lit ("Unexpected identifier")]),
   (.TYPE_ERROR, [.lit ("TypeError"),
      .seq ("Cannot read property") ("of undefined"),
      .lit ("Cannot read properties of null"), .lit ("is not a function"),
      .lit ("is not defined")]),
   (.IMPORT, [.lit ("Cannot find module"), .lit ("Module not found"),
      .lit ("Failed to resolve"), .lit ("Cannot resolve module")]),
   (.LOGIC, [.lit ("ReferenceError"), .lit ("is not defined"),
      .lit ("RangeError"), .lit ("Maximum call stack")])]

/-- Python `'\n'.join(context)`. -/
def joinNl : List (List Char) → List Char
  | [] => []
  | [l] => l
  | l :: r => l ++ '\n' :: joinNl r

/-- Kind tables tried in order; the first matching rule names the kind and
its match text becomes the message. -/
def identifyGo (combined : List Char) :
    List (ErrorKind × List MsgPat) → ErrorKind × String
  | [] => (.UNKNOWN, ("Unknown error"))
  | (k, ps) :: rest =>
    match firstSome (runPat combined) ps with
    | some m => (k, m.asString)
    | none => identifyGo combined rest

/-- `JavaScriptParser._identify_error` over the context window
`lines[i:i+5]`. -/
def identifyError (ctx : List (List Char)) : ErrorKind × String :=
  identifyGo (joinNl ctx) errorTable

/-- The outer per-line loop of `JavaScriptParser.parse_errors`: one record
per line whose locator survives the filter (the Python `if error_type:`
guard always holds since every enum member is truthy). -/
def parseGo (rp : Option (List Char)) : List (List Char) → List ErrorInfo
  | [] => []
  | l :: rest =>
    match locFromPats rp filePats l with
    | none => parseGo rp rest
    | some (f, n) =>
      let km := identifyError ((l :: rest).take 5)
      ⟨f.asString, n, km.1, km.2⟩ :: parseGo rp rest

namespace JavaScriptParser

/-- `JavaScriptParser.parse_errors(test_output, repo_path)`. -/
def parse_errors (testOutput : String) (repoPath : Option String) :
    List ErrorInfo :=
  parseGo (repoPath.map String.data) (splitLines testOutput.data)

end JavaScriptParser

/-- Python `str.rstrip()` (default whitespace). -/
def pyRstrip (s : String) : String :=
  ((s.data.reverse.dropWhile pyIsSpace).reverse).asString

/-- Python `str.lower()` (ASCII range, as used by the sources). -/
def pyLower (s : String) : String := (s.data.map Char.toLower).asString

/-- Python `pat in s` on strings. -/
def strContains (s pat : String) : Bool := hasSubstr s.data pat.data

/-- Python `str.endswith((suf, ...))`. -/
def endsAnyOf (s : String) (sufs : List String) : Bool :=
  sufs.any fun x => hasSuffix s.data x.data

/-- Number of leading whitespace characters:
`len(line) - len(line.lstrip())`. -/
def indentOf (s : String) : Nat := (s.data.takeWhile pyIsSpace).length

/-- Python `' ' * n`. -/
def spacesStr (n : Nat) : String := (List.replicate n ' ').asString

/-- Python `s.replace(pat, rep, 1)`. -/
def replFirst : List Char → List Char → List Char → List Char
  | [], _, _ => []
  | c :: t, pat, rep =>
    if leadMatch (c :: t) pat then rep ++ (c :: t).drop pat.length
    else c :: replFirst t pat rep

/-- Python `s.replace(pat, rep)`: all non-overlapping occurrences, left to
right. -/
def replAll (pat rep : List Char) : List Char → List Char
  | [] => []
  | c :: t =>
    if !pat.isEmpty && leadMatch (c :: t) pat then
      rep ++ replAll pat rep (t.drop (pat.length - 1))
    else c :: replAll pat rep t
termination_by l => l.length
decreasing_by
  · simp only [List.length_drop, List.length_cons]
    omega
  · simp only [List.length_cons]
    omega

/-- String-level wrapper of `replAll`. -/
def replaceAllStr (s pat rep : String) : String :=
  (replAll pat.data rep.data s.data).asString

/-- String-level wrapper of `replFirst`. -/
def replaceFirstStr (s pat rep : String) : String :=
  (replFirst s.data pat.data rep.data).asString

/-- Python list index normalization (negative indices count from the end;
out-of-range raises, modelled as `none`). -/
def normIdx (len : Nat) (i : Int) : Option Nat :=
  if 0 ≤ i then (if i < (len : Int) then some i.toNat else none)
  else (if 0 ≤ (len : Int) + i then some ((len : Int) + i).toNat else none)

/-- Python `l[i]` (an `IndexError` is `none`). -/
def pyGet {α : Type} (l : List α) (i : Int) : Option α :=
  (normIdx l.length i).bind fun j => l.get? j

/-- Python `l[i] = x` at an index previously validated by `pyGet`. -/
def pySet {α : Type} (l : List α) (i : Int) (x : α) : List α :=
  match normIdx l.length i with
  | some j => l.set j x
  | none => l

/-- Insert an element before position `n` of a list. -/
def insertAt {α : Type} : Nat → α → List α → List α
  | 0, x, l => x :: l
  | _ + 1, x, [] => [x]
  | n + 1, x, c :: t => c :: insertAt n x t

/-- Python `l.insert(i, x)` (clamping semantics, never raises). -/
def pyInsertList {α : Type} (l : List α) (i : Int) (x : α) : List α :=
  let n := l.length
  let j : Nat := if i < 0 then (max ((n : Int) + i) 0).toNat else min i.toNat n
  insertAt j x l

/-- The apostrophe character, used by the type-error fix regex. -/
def quoteChar : Char := Char.ofNat 39

/-- ASCII `\w`. -/
def isWordChar (c : Char) : Bool := c.isAlphanum || c == '_'

/-- The regex `'(\w+)' is not defined` of `JavaScriptFixer._fix_type_error`:
leftmost quote followed by a nonempty greedy run of word characters, the
closing quote and the literal tail. -/
def findVarName : List Char → Option (List Char)
  | [] => none
  | c :: t =>
    if c == quoteChar then
      let w := t.takeWhile isWordChar
      if !w.isEmpty &&
          leadMatch (t.drop w.length) (quoteChar :: (" is not defined").data)
        then some w
      else findVarName t
    else findVarName t

namespace JavaScriptFixer

/-!
A file on disk is an `Option (List String)` — `none` when opening or
reading it raises — each line keeping its trailing newline as produced by
`readlines()`.  `writeOk` models whether the write-back raises; the
`except` in each Python method turns any raise into a `False` return, and a
failed write is modelled as leaving the file with its prior content.
-/

/-- `JavaScriptFixer._fixSyntax`: three ordered line rules (trailing
semicolon, closing-brace insertion, `const`→`let`), then an unconditional
write-back; `True` whenever no exception occurred, even if no rule fired. -/
def fixSyntax (file : Option (List String)) (writeOk : Bool)
    (errLine : Nat) (msg : String) : Option (List String) × Bool :=
  match file with
  | none => (none, false)
  | some lines =>
    match pyGet lines ((errLine : Int) - 1) with
    | none => (some lines, false)
    | some line =>
      let fixed :=
        if strContains (pyLower msg) ("missing ;") then
          if !endsAnyOf (pyRstrip line) [(";"), ("\x7b"), ("\x7d"), (",")]
            then pySet lines ((errLine : Int) - 1) (pyRstrip line ++ (";\n"))
          else lines
        else if strContains (pyLower msg) ("missing \x7d") then
          pyInsertList lines ((errLine : Int) - 1 + 1)
            (spacesStr (indentOf line) ++ ("\x7d\n"))
        else if strContains line ("const") && !strContains line ("=") then
          pySet lines ((errLine : Int) - 1)
            (replaceAllStr line ("const ") ("let "))
        else lines
      if writeOk then (some fixed, true) else (some lines, false)

/-- `JavaScriptFixer._fix_type_error`: optional chaining for undefined
property access, or initialization of an undefined variable. -/
def fix_type_error (file : Option (List String)) (writeOk : Bool)
    (errLine : Nat) (msg : String) : Option (List String) × Bool :=
  match file with
  | none => (none, false)
  | some lines =>
    match pyGet lines ((errLine : Int) - 1) with
    | none => (some lines, false)
    | some line =>
      let fixed :=
        if strContains (pyLower msg) ("cannot read property") then
          if strContains line (".") && !strContains line ("?.") then
            pySet lines ((errLine : Int) - 1)
              (replaceFirstStr line (".") ("?."))
          else lines
        else if strContains (pyLower msg) ("is not defined") then
          match findVarName msg.data with
          | some v =>
            pyInsertList lines ((errLine : Int) - 1)
              (spacesStr (indentOf line) ++ ("const ") ++ v.asString
                ++ (" = null;\n"))
          | none => lines
        else lines
      if writeOk then (some fixed, true) else (some lines, false)

/-- `JavaScriptFixer._fix_import`: comment out the offending line when it
looks like an import. -/
def fix_import (file : Option (List String)) (writeOk : Bool)
    (errLine : Nat) : Option (List String) × Bool :=
  match file with
  | none => (none, false)
  | some lines =>
    match pyGet lines ((errLine : Int) - 1) with
    | none => (some lines, false)
    | some line =>
      let fixed :=
        if strContains (pyLower line) ("import") || strContains line ("require")
          then pySet lines ((errLine : Int) - 1) (("// ") ++ line)
        else lines
      if writeOk then (some fixed, true) else (some lines, false)

/-- `JavaScriptFixer.fix_error`: dispatch on the error kind; kinds without
a handler return `False` untouched. -/
def fix_error (e : ErrorInfo) (file : Option (List String))
    (writeOk : Bool) : Option (List String) × Bool :=
  match e.kind with
  | .SYNTAX => fixSyntax file writeOk e.line e.message
  | .TYPE_ERROR => fix_type_error file writeOk e.line e.message
  | .IMPORT => fix_import file writeOk e.line
  | _ => (file, false)

end JavaScriptFixer

/-- Glob match as used by the detection markers: every glob pattern in the
registry is of the form `*suffix`, matched against root-level file names. -/
def globSuffix (pat f : String) : Bool :=
  match pat.data with
  | '*' :: suf => hasSuffix f.data suf
  | _ => f == pat

/-- The ordered `markers` table of `detect_language` (Python dict insertion
order). -/
def langMarkers : List (String × List String) :=
  [(("python"), [("requirements.txt"), ("setup.py"), ("pyproject.toml"),
      ("Pipfile")]),
   (("javascript"), [("package.json")]),
   (("typescript"), [("tsconfig.json")]),
   (("java"), [("pom.xml"), ("build.gradle"), ("build.gradle.kts")]),
   (("go"), [("go.mod"), ("go.sum")]),
   (("rust"), [("Cargo.toml")]),
   (("ruby"), [("Gemfile"), ("Rakefile")]),
   (("csharp"), [("*.csproj"), ("*.sln")])]

/-- One marker hit: glob patterns go through `glob.glob`, plain names
through `os.path.exists`.  The repository is modelled by the list of its
root-level file names. -/
def markerHit (repoFiles : List String) (m : String) : Bool :=
  if hasSubstr m.data ['*'] then repoFiles.any fun f => globSuffix m f
  else repoFiles.contains m

/-- The scan of `detect_language` over the marker table. -/
def detectGo (repoFiles : List String) : List (String × List String) → String
  | [] => ("unknown")
  | (lang, ms) :: rest =>
    if ms.any (markerHit repoFiles) then lang else detectGo repoFiles rest

/-- `detect_language(repo_path)`: first language whose marker set matches a
present file, else the sentinel `"unknown"`. -/
def detect_language (repoFiles : List String) : String :=
  detectGo repoFiles langMarkers

/-- The closed set of language plugins registered in `LANGUAGE_REGISTRY`. -/
inductive LanguagePlugin
  | python | javascript
deriving DecidableEq

/-- The `LANGUAGE_REGISTRY` table. -/
def LANGUAGE_REGISTRY : List (String × LanguagePlugin) :=
  [(("python"), .python), (("javascript"), .javascript),
   (("typescript"), .javascript)]

/-- `get_language_plugin(language)`: registry lookup with an explicit
fallback to the Python plugin when the language is not registered. -/
def get_language_plugin (lang : String) : LanguagePlugin :=
  match LANGUAGE_REGISTRY.find? (fun p => p.1 == lang) with
  | some p => p.2
  | none => .python

/-- Terminal status of a run. -/
inductive RunStatus
  | PASSED | PARTIAL | FAILED
deriving DecidableEq

/-- Modelled from the spec: the status derivation of §4.5, a pure function
of the final parse's error count and the cumulative fix count. -/
def statusOf (finalErrors totalFixes : Nat) : RunStatus :=
  if finalErrors = 0 then .PASSED
  else if totalFixes = 0 then .FAILED
  else .PARTIAL

/-- The observable summary of a run (`RunResult` of §3, restricted to the
fields the orchestrator invariants speak about). -/
structure RunResult where
  iterations : Nat
  totalFixes : Nat
  finalErrors : Nat
  status : RunStatus
deriving DecidableEq

/-- Modelled from the spec: the retry loop of §4.5 (the orchestrator source
`docker_runner.py` is not part of this checkout).  The environment `env`
returns, for iteration `k`, the number of errors the parse found and the
number of fixes the engine then applied.  Each exit site carries the status
the spec assigns to it: an empty parse ends the loop as PASSED at once, a
fixless iteration with errors remaining short-circuits, and budget
exhaustion derives the status from the accumulated counts. -/
def runLoopGo (env : Nat → Nat × Nat) : Nat → Nat → Nat → RunResult
  | 0, k, cum => ⟨k, cum, 0, .PASSED⟩
  | fuel + 1, k, cum =>
    let ef := env k
    if ef.1 = 0 then ⟨k + 1, cum, 0, .PASSED⟩
    else if ef.2 = 0 then
      ⟨k + 1, cum, ef.1, if cum = 0 then .FAILED else .PARTIAL⟩
    else if fuel = 0 then
      ⟨k + 1, cum + ef.2, ef.1,
        if cum + ef.2 = 0 then .FAILED else .PARTIAL⟩
    else runLoopGo env fuel (k + 1) (cum + ef.2)

/-- Modelled from the spec: `runRemediation(..., maxRetries)` of §6,
abstracted over the per-iteration test outcomes. -/
def runRemediation (env : Nat → Nat × Nat) (maxRetries : Nat) : RunResult :=
  runLoopGo env maxRetries 0 0

/-- Python `str.upper()` (ASCII range). -/
def pyUpper (s : String) : String := (s.data.map Char.toUpper).asString

/-- Collapse every maximal run of whitespace into a single underscore
(`re.sub(r'\s+', '_', s)`); the flag records whether the previous
character was inside a whitespace run. -/
def collapseWsAux : Bool → List Char → List Char
  | _, [] => []
  | prevWs, c :: t =>
    if pyIsSpace c then
      if prevWs then collapseWsAux true t else '_' :: collapseWsAux true t
    else c :: collapseWsAux false t

/-- String-level whitespace collapsing. -/
def collapseWs (s : String) : String := (collapseWsAux false s.data).asString

/-- Modelled from the spec: the branch name function of §4.6/§6 (the git
pipeline source `git_utils.py` is not part of this checkout) — each
identifier uppercased, whitespace collapsed to `_`, joined with the
`_AI_FIX` suffix. -/
def branch_name (team leader : String) : String :=
  collapseWs (pyUpper team) ++ ("_") ++ collapseWs (pyUpper leader)
    ++ ("_AI_FIX")

/-- JavaScript `Math.round` on the non-negative finite values produced by
the results page: round half toward positive infinity. -/
def jsRound (q : ℚ) : ℤ := ⌊q + 1 / 2⌋

/-- The Success Rate cell of `ResultsPage`:
`total_failures > 0 ? Math.round((total_fixes / total_failures) * 100) : 0`. -/
def successRate (fixes failures : Nat) : ℤ :=
  if 0 < failures then jsRound ((fixes : ℚ) / (failures : ℚ) * 100) else 0

/-- The two-line file used to exercise the missing-closing-brace rule. -/
def braceFile : List String := [("function f() \x7b\n"), ("  return 1\n")]

/-- Does `fix_error` have a handler for this kind?  Only SYNTAX,
TYPE_ERROR and IMPORT dispatch to a fixer method. -/
def handledKind : ErrorKind → Bool
  | .SYNTAX => true
  | .TYPE_ERROR => true
  | .IMPORT => true
  | _ => false

/-- Can the reported line be read from the file (read succeeded and the
Python index `error.line - 1` is in range)? -/
def lineFound (file : Option (List String)) (n : Nat) : Bool :=
  match file with
  | none => false
  | some lines => (pyGet lines ((n : Int) - 1)).isSome

/-- Jest-style output in which the same failure locator line (and its
`TypeError` context) appears twice. -/
def dupOutput : String :=
  ("  at Object.<anonymous> (/workspace/src/app.js:5:10)\nTypeError: Cannot read properties of null\n  at Object.<anonymous> (/workspace/src/app.js:5:10)\nTypeError: Cannot read properties of null")

/-! ## Theorems -/

theorem str_data_append (s t : String) : (s ++ t).data = s.data ++ t.data := by
  cases s; cases t; rfl

theorem leadMatch_nil (l : List Char) : leadMatch l [] = true := by
  cases l <;> rfl

theorem leadMatch_append (p t : List Char) : leadMatch (p ++ t) p = true := by
  induction p with
  | nil => simpa using leadMatch_nil t
  | cons c cs ih => simp [leadMatch, ih]

theorem hasSuffix_append (l suf : List Char) : hasSuffix (l ++ suf) suf = true := by
  unfold hasSuffix
  rw [List.reverse_append]
  exact leadMatch_append suf.reverse l.reverse

theorem runLoopGo_status (env : Nat → Nat × Nat) :
    ∀ fuel k cum, (runLoopGo env fuel k cum).status =
      statusOf (runLoopGo env fuel k cum).finalErrors
        (runLoopGo env fuel k cum).totalFixes := by
  intro fuel
  induction fuel with
  | zero => intro k cum; simp [runLoopGo, statusOf]
  | succ fuel ih =>
    intro k cum
    by_cases h1 : (env k).1 = 0
    · simp [runLoopGo, h1, statusOf]
    · by_cases h2 : (env k).2 = 0
      · simp [runLoopGo, h1, h2, statusOf]
      · by_cases h3 : fuel = 0
        · simp [runLoopGo, h1, h2, h3, statusOf]
        · simp only [runLoopGo, if_neg h1, if_neg h2, if_neg h3]
          exact ih (k + 1) (cum + (env k).2)

theorem runLoopGo_iters (env : Nat → Nat × Nat) :
    ∀ fuel k cum, (runLoopGo env fuel k cum).iterations ≤ k + fuel := by
  intro fuel
  induction fuel with
  | zero => intro k cum; simp [runLoopGo]
  | succ fuel ih =>
    intro k cum
    by_cases h1 : (env k).1 = 0
    · simp only [runLoopGo, if_pos h1]
      omega
    · by_cases h2 : (env k).2 = 0
      · simp only [runLoopGo, if_neg h1, if_pos h2]
        omega
      · by_cases h3 : fuel = 0
        · simp only [runLoopGo, if_neg h1, if_neg h2, if_pos h3]
          omega
        · simp only [runLoopGo, if_neg h1, if_neg h2, if_neg h3]
          have := ih (k + 1) (cum + (env k).2)
          omega

/-- C1: for every run that terminates normally, the terminal status of the
`RunResult` is the pure function `statusOf` of the final error count and
the cumulative fix count — PASSED on zero errors, FAILED on zero
cumulative fixes with errors remaining, PARTIAL otherwise — at every exit
site of the retry loop. -/
theorem c1_status_pure_function (env : Nat → Nat × Nat) (maxRetries : Nat) :
    (runRemediation env maxRetries).status =
      statusOf (runRemediation env maxRetries).finalErrors
        (runRemediation env maxRetries).totalFixes :=
  runLoopGo_status env maxRetries 0 0

/-- C2: the iteration count recorded in the `RunResult` never exceeds the
configured `maxRetries` bound of `runRemediation`. -/
theorem c2_iterations_le_maxRetries (env : Nat → Nat × Nat) (maxRetries : Nat) :
    (runRemediation env maxRetries).iterations ≤ maxRetries := by
  have := runLoopGo_iters env maxRetries 0 0
  simpa [runRemediation] using this

/-- C3: the claim requires re-applying a rule to an already-fixed line to
be a no-op or a non-match, but the missing-closing-brace insertion of
`JavaScriptFixer._fixSyntax` matches again on its own output and inserts
a second brace: applying it twice to `braceFile` at line 1 changes the
file again (and still reports success). -/
theorem c3_brace_rule_reapplies :
    ((JavaScriptFixer.fixSyntax
        (JavaScriptFixer.fixSyntax (some braceFile) true 1 ("missing \x7d")).1
        true 1 ("missing \x7d")).1 ≠
      (JavaScriptFixer.fixSyntax (some braceFile) true 1 ("missing \x7d")).1)
    ∧ (JavaScriptFixer.fixSyntax
        (JavaScriptFixer.fixSyntax (some braceFile) true 1 ("missing \x7d")).1
        true 1 ("missing \x7d")).2 = true := by
  decide

/-- C4 counterexample: a SYNTAX record whose message matches none of the
three syntax rules and whose line triggers none of the line conditions is
still returned as Fixed (`True`) with the file rewritten unchanged, so
"Fixed only when some rule's condition matched" fails. -/
theorem c4_fixed_without_match :
    JavaScriptFixer.fix_error
        ⟨("a.js"), 1, .SYNTAX, ("Unexpected token")⟩
        (some [("x = 1;\n")]) true = (some [("x = 1;\n")], true)
    ∧ strContains (pyLower ("Unexpected token")) ("missing ;") = false
    ∧ strContains (pyLower ("Unexpected token")) ("missing \x7d") = false
    ∧ (strContains ("x = 1;\n") ("const")
        && !strContains ("x = 1;\n") ("=")) = false := by
  decide

theorem fixSyntax_snd (file : Option (List String)) (w : Bool)
    (l : Nat) (m : String) :
    (JavaScriptFixer.fixSyntax file w l m).2 = (lineFound file l && w) := by
  cases file with
  | none => simp [JavaScriptFixer.fixSyntax, lineFound]
  | some lines =>
    cases h : pyGet lines ((l : Int) - 1) with
    | none => simp [JavaScriptFixer.fixSyntax, lineFound, h]
    | some line =>
      cases w <;> simp [JavaScriptFixer.fixSyntax, lineFound, h]

theorem fix_type_error_snd (file : Option (List String)) (w : Bool)
    (l : Nat) (m : String) :
    (JavaScriptFixer.fix_type_error file w l m).2 = (lineFound file l && w) := by
  cases file with
  | none => simp [JavaScriptFixer.fix_type_error, lineFound]
  | some lines =>
    cases h : pyGet lines ((l : Int) - 1) with
    | none => simp [JavaScriptFixer.fix_type_error, lineFound, h]
    | some line =>
      cases w <;> simp [JavaScriptFixer.fix_type_error, lineFound, h]

theorem fix_import_snd (file : Option (List String)) (w : Bool) (l : Nat) :
    (JavaScriptFixer.fix_import file w l).2 = (lineFound file l && w) := by
  cases file with
  | none => simp [JavaScriptFixer.fix_import, lineFound]
  | some lines =>
    cases h : pyGet lines ((l : Int) - 1) with
    | none => simp [JavaScriptFixer.fix_import, lineFound, h]
    | some line =>
      cases w <;> simp [JavaScriptFixer.fix_import, lineFound, h]

/-- C4 (as amended): `fix_error` reports Fixed exactly when the error kind
has a handler, the file read and line lookup succeed, and the write-back
succeeds — independently of whether any rule's condition matched the
line.  No-match still yields Fixed; I/O failure yields Unfixed. -/
theorem c4_fixed_iff_io_ok (e : ErrorInfo) (file : Option (List String))
    (writeOk : Bool) :
    (JavaScriptFixer.fix_error e file writeOk).2 =
      (handledKind e.kind && lineFound file e.line && writeOk) := by
  cases e with
  | mk f l k m =>
    cases k <;>
      simp [JavaScriptFixer.fix_error, handledKind, fixSyntax_snd,
        fix_type_error_snd, fix_import_snd]

/-- C5 counterexample: a repository matching no registered language's
markers does not fail remediation — detection yields the sentinel
`"unknown"`, and `get_language_plugin` then falls back to the Python
plugin instead of aborting, so the fix engine of the Python plugin is what
the orchestrator receives. -/
theorem c5_unknown_gets_python_plugin :
    detect_language [("README.md")] = ("unknown")
    ∧ get_language_plugin (detect_language [("README.md")]) =
        LanguagePlugin.python := by
  decide

/-- C5 (as amended): whenever detection yields the sentinel `"unknown"`,
the plugin lookup falls back to the Python plugin, so remediation proceeds
with Python tooling rather than failing immediately. -/
theorem c5_unknown_falls_back (repoFiles : List String)
    (h : detect_language repoFiles = ("unknown")) :
    get_language_plugin (detect_language repoFiles) = LanguagePlugin.python := by
  rw [h]
  decide

theorem c5_unknown_falls_back_witness :
    detect_language [("LICENSE")] = ("unknown")
    ∧ get_language_plugin (detect_language [("LICENSE")]) =
        LanguagePlugin.python :=
  ⟨by decide, c5_unknown_falls_back [("LICENSE")] (by decide)⟩

/-- C6: `JavaScriptParser.parse_errors` performs no deduplication — the
duplicated locator above yields two identical records, so two records of
one parse result share the same (file, line, kind) triple, violating the
uniqueness invariant the claim states. -/
theorem c6_duplicate_triple :
    JavaScriptParser.parse_errors dupOutput none =
      [⟨("/workspace/src/app.js"), 5, .TYPE_ERROR, ("TypeError")⟩,
       ⟨("/workspace/src/app.js"), 5, .TYPE_ERROR, ("TypeError")⟩]
    ∧ ¬ (JavaScriptParser.parse_errors dupOutput none).Pairwise
        (fun a b => (a.file, a.line, a.kind) ≠ (b.file, b.line, b.kind)) := by
  constructor
  · decide
  · decide

theorem isEmpty_false_of_ne_nil {α : Type} {l : List α} (h : l ≠ []) :
    l.isEmpty = false := by
  cases l with
  | nil => exact absurd rfl h
  | cons c t => rfl

theorem lstripSlash_cons_of_no_slash {rest : List Char}
    (h : leadMatch rest ['/'] = false) :
    lstripSlash ('/' :: rest) = rest := by
  cases rest with
  | nil => rfl
  | cons c t =>
    simp only [leadMatch, Bool.and_eq_false_iff] at h
    unfold lstripSlash
    rcases h with h | h
    · simp [List.dropWhile, h]
    · simp [leadMatch_nil] at h

/-- C7: a locator reported from inside the sandbox mount point
`/workspace` is stored as the equivalent path inside the host-visible
repository copy: for a path `/workspace/<rest>` and a host copy path with
no trailing separator, the conversion step of `parse_errors` produces
exactly `<repo>/<rest>`. -/
theorem c7_workspace_rewritten (repo rest : List Char)
    (h1 : repo ≠ []) (h2 : hasSuffix repo ['/'] = false)
    (h3 : leadMatch rest ['/'] = false) :
    convertPathCs (some repo) ((("/workspace/").data) ++ rest) =
      repo ++ '/' :: rest := by
  have e : (("/workspace/").data) ++ rest = (("/workspace").data) ++ '/' :: rest := by
    rfl
  rw [e]
  unfold convertPathCs
  rw [if_pos ?hc]
  case hc => exact leadMatch_append (("/workspace").data) ('/' :: rest)
  dsimp only
  rw [if_neg ?hne]
  case hne => simp [isEmpty_false_of_ne_nil h1]
  have hdrop : ((("/workspace").data) ++ '/' :: rest).drop 10 = '/' :: rest := by
    have : (10 : Nat) = (("/workspace").data).length := by rfl
    rw [this, List.drop_left]
  rw [hdrop, lstripSlash_cons_of_no_slash h3]
  unfold pathJoin
  rw [if_neg ?hb, if_neg ?ha]
  case hb => simp [h3]
  case ha => simp [isEmpty_false_of_ne_nil h1, h2]

theorem c7_workspace_rewritten_witness :
    convertPathCs (some (("/host/repo").data)) (("/workspace/src/app.js").data)
      = (("/host/repo/src/app.js").data) := by
  have h := c7_workspace_rewritten (("/host/repo").data) (("src/app.js").data)
    (by decide) (by decide) (by decide)
  have e1 : (("/workspace/src/app.js").data) =
      (("/workspace/").data) ++ (("src/app.js").data) := by decide
  have e2 : (("/host/repo").data) ++ '/' :: (("src/app.js").data) =
      (("/host/repo/src/app.js").data) := by decide
  rw [e1, h, e2]

theorem locFromPats_no_nm (rp : Option (List Char))
    (pats : List (List Char → Option (List Char × Nat))) (l : List Char)
    (f : List Char) (n : Nat)
    (h : locFromPats rp pats l = some (f, n)) :
    hasSubstr f nmChars = false := by
  induction pats with
  | nil => simp [locFromPats] at h
  | cons p ps ih =>
    simp only [locFromPats] at h
    cases hp : p l with
    | none =>
      rw [hp] at h
      exact ih h
    | some fn =>
      rw [hp] at h
      obtain ⟨f0, n0⟩ := fn
      dsimp only at h
      by_cases hnm : hasSubstr (convertPathCs rp f0) nmChars = true
      · rw [if_pos hnm] at h
        exact ih h
      · rw [if_neg hnm] at h
        have hf : convertPathCs rp f0 = f :=
          congrArg Prod.fst (Option.some.inj h)
        simp only [Bool.not_eq_true] at hnm
        rw [← hf]
        exact hnm

theorem parseGo_no_nm (rp : Option (List Char)) :
    ∀ (ls : List (List Char)) (r : ErrorInfo), r ∈ parseGo rp ls →
      hasSubstr r.file.data nmChars = false := by
  intro ls
  induction ls with
  | nil => intro r hr; simp [parseGo] at hr
  | cons l rest ih =>
    intro r hr
    simp only [parseGo] at hr
    cases hl : locFromPats rp filePats l with
    | none =>
      rw [hl] at hr
      exact ih r hr
    | some fn =>
      rw [hl] at hr
      obtain ⟨f, n⟩ := fn
      dsimp only at hr
      rcases List.mem_cons.mp hr with hEq | hMem
      · subst hEq
        exact locFromPats_no_nm rp filePats l f n hl
      · exact ih r hMem

/-- C8: no `ErrorRecord` produced by `parse_errors` carries a file path
inside `node_modules` — such locators are discarded by the parser's noise
filter before a record is created. -/
theorem c8_no_vendored_paths (testOutput : String) (repoPath : Option String)
    (r : ErrorInfo) (h : r ∈ JavaScriptParser.parse_errors testOutput repoPath) :
    hasSubstr r.file.data nmChars = false :=
  parseGo_no_nm (repoPath.map String.data) (splitLines testOutput.data) r h

theorem c8_no_vendored_paths_witness :
    (⟨("a.js"), 1, .UNKNOWN, ("Unknown error")⟩ : ErrorInfo) ∈
      JavaScriptParser.parse_errors ("Error in a.js:1") none
    ∧ hasSubstr
        (ErrorInfo.file ⟨("a.js"), 1, .UNKNOWN, ("Unknown error")⟩).data
        nmChars = false :=
  ⟨by decide,
   c8_no_vendored_paths ("Error in a.js:1") none
     ⟨("a.js"), 1, .UNKNOWN, ("Unknown error")⟩ (by decide)⟩

theorem collapseWsAux_no_ws :
    ∀ (b : Bool) (cs : List Char),
      ((collapseWsAux b cs).all fun c => !pyIsSpace c) = true := by
  intro b cs
  induction cs generalizing b with
  | nil => rfl
  | cons c t ih =>
    simp only [collapseWsAux]
    cases hc : pyIsSpace c with
    | true =>
      have hu : pyIsSpace '_' = false := by decide
      cases b <;> simp [hc, hu, ih true]
    | false =>
      simp [hc, ih false]

/-- C9: `branch_name` is the pure function claimed — the branch it
produces contains no whitespace, always ends in the literal `_AI_FIX`
suffix, equals the two identifiers uppercased with whitespace runs
collapsed to `_` joined in the `{TEAM}_{LEADER}_AI_FIX` shape, and agrees
with the documented example.  Determinism and totality are immediate:
`branch_name` is a total Lean function of its two arguments. -/
theorem c9_branch_name_pure (team leader : String) :
    ((branch_name team leader).data.all fun c => !pyIsSpace c) = true
    ∧ hasSuffix (branch_name team leader).data (("_AI_FIX").data) = true
    ∧ branch_name team leader =
        collapseWs (pyUpper team) ++ ("_") ++ collapseWs (pyUpper leader)
          ++ ("_AI_FIX")
    ∧ branch_name ("TeamA") ("John") = ("TEAMA_JOHN_AI_FIX") := by
  refine ⟨?_, ?_, rfl, by decide⟩
  · have hd : (branch_name team leader).data =
        (collapseWsAux false (pyUpper team).data ++ '_' ::
          (collapseWsAux false (pyUpper leader).data ++ ("_AI_FIX").data)) := by
      simp [branch_name, collapseWs, str_data_append, List.asString]
    rw [hd]
    simp only [List.all_append, List.all_cons, Bool.and_eq_true]
    refine ⟨collapseWsAux_no_ws false (pyUpper team).data, by decide,
      collapseWsAux_no_ws false (pyUpper leader).data, by decide⟩
  · have hd : (branch_name team leader).data =
        ((collapseWsAux false (pyUpper team).data ++ '_' ::
          collapseWsAux false (pyUpper leader).data) ++ ("_AI_FIX").data) := by
      simp [branch_name, collapseWs, str_data_append, List.asString]
    rw [hd]
    exact hasSuffix_append _ _

/-- C10: the Success Rate shown by the results page is
`Math.round(100 * total_fixes / total_failures)` when failures were
observed and the literal `0` otherwise — the division is guarded by the
`total_failures > 0` ternary, and a run with zero observed failures shows
a 0% rate whatever its status; for positive failure counts the rounded
value equals the integer `(200·fixes + failures) / (2·failures)`. -/
theorem c10_success_rate_guarded (fixes failures : Nat) :
    (0 < failures →
      successRate fixes failures = ((200 * fixes + failures) / (2 * failures) : ℕ))
    ∧ successRate fixes 0 = 0 := by
  constructor
  · intro hF
    unfold successRate jsRound
    rw [if_pos hF]
    have hF0 : (failures : ℚ) ≠ 0 := by
      exact_mod_cast Nat.pos_iff_ne_zero.mp hF
    have hq : (fixes : ℚ) / (failures : ℚ) * 100 + 1 / 2 =
        (((200 * fixes + failures : ℕ) : ℚ)) / (((2 * failures : ℕ) : ℚ)) := by
      push_cast
      field_simp
      ring
    rw [hq, Rat.floor_natCast_div_natCast]
    exact (Int.ofNat_tdiv _ _).symm
  · simp [successRate]

theorem c10_success_rate_guarded_witness :
    successRate 3 4 = ((200 * 3 + 4) / (2 * 4) : ℕ)
    ∧ successRate 3 0 = 0 :=
  ⟨(c10_success_rate_guarded 3 4).1 (by decide),
   (c10_success_rate_guarded 3 0).2⟩
